import Mathlib

/-
Verification of the akasha-mcp-gateway protocol engine.

The repository is a Node.js gateway exposing one tool (qdrant_search) over a
JSON-RPC-style protocol on two transports (WebSocket and SSE POST+stream).
The shallow embedding below follows the most evolved revision of the server,
src/unnamed/part_000 lines 110-341 (function handleRpcMessage, the WebSocket
message handler and the SSE POST end handler); src/server.js lines 40-110 is
an earlier revision of the same handleRpcMessage, identical except that it
lacks the leading no-method guard.

External effects are modelled as oracles: JSON.parse of an inbound body is an
`Option RpcMessage` (none = the parse threw), and the one backend fetch is a
`FetchOutcome` describing what the JS runtime presented to the awaiting code.
-/

/-- A JSON value as JavaScript manipulates it (numbers as integers: every
numeric literal the gateway itself produces is an integer). -/
inductive Json where
  | null : Json
  | bool : Bool → Json
  | num : Int → Json
  | str : String → Json
  | arr : List Json → Json
  | obj : List (String × Json) → Json

/-- Field lookup on a JSON object, none on any other value. -/
def Json.getField : Json → String → Option Json
  | .obj fields, k => fields.lookup k
  | _, _ => none

/-- JavaScript truthiness test used by the guard `if (!method) return`. -/
def jsFalsy : Json → Bool
  | .null => true
  | .bool b => !b
  | .num n => n == 0
  | .str s => s == ""
  | .arr _ => false
  | .obj _ => false

/-- The nullish-coalescing operator `v ?? d` applied to a field that may be
absent (`none` = the property is missing / undefined). -/
def jsCoalesce (v : Option Json) (d : Json) : Json :=
  match v with
  | none => d
  | some .null => d
  | some x => x

/-- The fields of `params.arguments` the tools/call branch reads via
`args?.query`, `args?.traditions`, `args?.topK`, `args?.lang`.
`none` = the property is absent (undefined). -/
structure ToolArgs where
  query : Option Json
  traditions : Option Json
  topK : Option Json
  lang : Option Json

/-- The fields of `msg.params` the engine reads: `params.name` and
`params.arguments` (destructured after `msg.params || \x7b\x7d`). -/
structure RpcParams where
  name : Option Json
  arguments : Option ToolArgs

/-- A decoded inbound message, projected onto the fields the engine touches:
`msg.id`, `msg.method`, `msg.params`. A non-object or falsy parse result
projects to all-none fields, which the engine treats identically. -/
structure RpcMessage where
  id : Option Json
  method : Option Json
  params : Option RpcParams

/-- The `name !== "qdrant_search"` strict-equality check (negated): true
exactly when params.name is the string "qdrant_search". -/
def isQdrantName : Option Json → Bool
  | some (.str s) => s == "qdrant_search"
  | _ => false

/-- The outcome field of a delivered JSON-RPC object: either a `result`
payload or an `error` with numeric code and message. -/
inductive RpcOutcome where
  | result : Json → RpcOutcome
  | fault : Int → String → RpcOutcome

/-- One object handed to the responder. `id` is the `id` property of the
object literal; `none` models the JS `undefined` that JSON.stringify drops,
so `none` = the serialized response carries no id. -/
structure RpcResponse where
  id : Option Json
  outcome : RpcOutcome

/-- The serialized body of the one backend POST (`JSON.stringify(body)`):
`none` fields are absent from the serialized JSON, `some v` fields are
present with value v (possibly Json.null). -/
structure QueryBody where
  query : Option Json
  traditions : Option Json
  topK : Option Json
  lang : Option Json

/-- What the awaited fetch presents to the tools/call branch:
the promise rejects (fetch or a body read throws, e carries String(e)),
a non-ok response with its text body, an ok response whose json() parses,
or an ok response whose json() throws. -/
inductive FetchOutcome where
  | reject : String → FetchOutcome
  | notOk : Nat → String → FetchOutcome
  | okJson : Json → FetchOutcome
  | okJsonError : String → FetchOutcome

/-- What one call of handleRpcMessage did: the object passed to the
responder, if any, and the backend request issued, if any. -/
structure HandleResult where
  response : Option RpcResponse
  backendRequest : Option QueryBody

def PROTOCOL_VERSION : String := "2024-05-14"

def SERVER_NAME : String := "akasha-mcp"

def SERVER_VERSION : String := "0.1.0"

/-- The inputSchema object literal of the tool spec. -/
def inputSchemaJson : Json :=
  .obj [("type", .str "object"),
        ("properties", .obj
          [("query", .obj [("type", .str "string")]),
           ("traditions", .obj [("oneOf", .arr
              [.obj [("type", .str "string")],
               .obj [("type", .str "array"), ("items", .obj [("type", .str "string")])]])]),
           ("topK", .obj [("type", .str "number"), ("default", .num 6)]),
           ("lang", .obj [("type", .str "string")])]),
        ("required", .arr [.str "query", .str "traditions"])]

/-- The toolSpec object literal (both casing variants of the schema key are
advertised, sharing one schema object). -/
def toolSpecJson : Json :=
  .obj [("name", .str "qdrant_search"),
        ("description", .str "Embed + search via Akasha FastAPI /query. Args: query, traditions (string|array), topK, lang."),
        ("input_schema", inputSchemaJson),
        ("inputSchema", inputSchemaJson)]

/-- The initialize result object literal. -/
def initResultJson : Json :=
  .obj [("protocolVersion", .str PROTOCOL_VERSION),
        ("serverInfo", .obj [("name", .str SERVER_NAME), ("version", .str SERVER_VERSION)]),
        ("capabilities", .obj
          [("tools", .obj [("list", .bool true), ("call", .bool true)]),
           ("prompts", .obj [("list", .bool true)]),
           ("resources", .obj [("list", .bool true)])])]

def okResult : Json := .obj [("ok", .bool true)]

def resourcesResult : Json := .obj [("resources", .arr [])]

def promptsResult : Json := .obj [("prompts", .arr [])]

def toolsListResult : Json := .obj [("tools", .arr [toolSpecJson])]

/-- The tool-listing method names the engine accepts. -/
def toolListAliases : List String :=
  ["tools/list", "listTools", "getTools", "get_tools", "list_tools"]

/-- A content part of the form (type: "text", text: s). -/
def textPart (s : String) : Json :=
  .obj [("type", .str "text"), ("text", .str s)]

/-- A content part of the form (type: "json", data: d). -/
def jsonPart (d : Json) : Json :=
  .obj [("type", .str "json"), ("data", d)]

/-- A result payload of the form (content: parts, isError: b). -/
def toolResultJson (content : List Json) (isError : Bool) : Json :=
  .obj [("content", .arr content), ("isError", .bool isError)]

/-- The downstream request body built in the tools/call branch:
query and traditions via `args?.x` (absent stays absent), topK via
`args?.topK ?? 6`, lang via `args?.lang ?? null` (both always present in the
serialized body). -/
def qdrantBody (args : Option ToolArgs) : QueryBody :=
  { query := args.bind ToolArgs.query
    traditions := args.bind ToolArgs.traditions
    topK := some (jsCoalesce (args.bind ToolArgs.topK) (Json.num 6))
    lang := some (jsCoalesce (args.bind ToolArgs.lang) Json.null) }

/-- The result payload the tools/call branch delivers for each fetch outcome:
the non-ok branch formats "FastAPI <status>: <text>", the ok branch wraps the
parsed body, and the catch block formats "Gateway error: " + String(e). -/
def backendResponseResult : FetchOutcome → Json
  | .reject e => toolResultJson [textPart ("Gateway error: " ++ e)] true
  | .notOk status body => toolResultJson [textPart ("FastAPI " ++ toString status ++ ": " ++ body)] true
  | .okJson data => toolResultJson [jsonPart data] false
  | .okJsonError e => toolResultJson [textPart ("Gateway error: " ++ e)] true

/-- A HandleResult that answered with one response and issued no backend
request. -/
def simpleResp (id : Option Json) (o : RpcOutcome) : HandleResult :=
  { response := some { id := id, outcome := o }, backendRequest := none }

def emptyParams : RpcParams := { name := none, arguments := none }

/-- Dispatch on a string-valued method, src/unnamed/part_000 lines 150-203:
the method table of handleRpcMessage after the no-method guard. -/
def dispatchString (id : Option Json) (s : String) (params : Option RpcParams)
    (backend : FetchOutcome) : HandleResult :=
  if s = "initialize" then simpleResp id (.result initResultJson)
  else if s = "notifications/initialized" then simpleResp id (.result okResult)
  else if s = "ping" then simpleResp id (.result okResult)
  else if s = "resources/list" then simpleResp id (.result resourcesResult)
  else if s = "prompts/list" then simpleResp id (.result promptsResult)
  else if toolListAliases.contains s then simpleResp id (.result toolsListResult)
  else if s = "tools/call" then
    let p := params.getD emptyParams
    if isQdrantName p.name then
      { response := some { id := id, outcome := .result (backendResponseResult backend) }
        backendRequest := some (qdrantBody p.arguments) }
    else
      simpleResp id (.fault (-32601) "Unknown tool")
  else
    simpleResp id (.fault (-32601) "Method not found")

/-- handleRpcMessage, src/unnamed/part_000 lines 146-204: destructure id and
method, drop the message when method is falsy or absent, else dispatch.
A truthy non-string method matches no strict-equality check and falls to the
default Method-not-found fault. -/
def handleRpcMessage (msg : RpcMessage) (backend : FetchOutcome) : HandleResult :=
  match msg.method with
  | none => { response := none, backendRequest := none }
  | some m =>
    if jsFalsy m then { response := none, backendRequest := none }
    else
      match m with
      | .str s => dispatchString msg.id s msg.params backend
      | _ => simpleResp msg.id (.fault (-32601) "Method not found")

/-- The WebSocket message handler, src/unnamed/part_000 lines 320-325: parse
failure returns before any send; otherwise every responder call sends one
frame. The value is the list of frames sent on the socket. -/
def wsOnMessage (decoded : Option RpcMessage) (backend : FetchOutcome) : List RpcResponse :=
  match decoded with
  | none => []
  | some msg => ((handleRpcMessage msg backend).response).toList

/-- What one SSE POST end handler did: the HTTP status of the synchronous
acknowledgement, and the message events written onto the paired stream. -/
structure SsePostResult where
  httpStatus : Nat
  streamEvents : List RpcResponse

/-- The SSE POST end handler, src/unnamed/part_000 lines 285-303, for a POST
whose cid names a live stream: parse failure lands in the catch block (HTTP
400, no responder call); otherwise the responder writes each delivered object
as a message event and the POST is acknowledged with HTTP 200. -/
def ssePostOnEnd (decoded : Option RpcMessage) (backend : FetchOutcome) : SsePostResult :=
  match decoded with
  | none => { httpStatus := 400, streamEvents := [] }
  | some msg =>
    { httpStatus := 200
      streamEvents := ((handleRpcMessage msg backend).response).toList }

/-- A tools/call message naming the registered tool, with the given id and
arguments: the shape every registered-tool invocation decodes to. -/
def toolCallMsg (id : Option Json) (pargs : Option ToolArgs) : RpcMessage :=
  { id := id
    method := some (Json.str "tools/call")
    params := some { name := some (Json.str "qdrant_search"), arguments := pargs } }

/-- Test inputs used by concrete theorems below: the arguments of the spec's
scenario (query "karma", traditions "buddhism", nothing else supplied). -/
def argsKarma : ToolArgs :=
  { query := some (.str "karma"), traditions := some (.str "buddhism"), topK := none, lang := none }

/-- Test input: arguments supplying topK explicitly as JSON null and no lang. -/
def argsTopKNull : ToolArgs :=
  { query := some (.str "karma"), traditions := some (.str "buddhism"),
    topK := some Json.null, lang := none }

/-- Test input: the backend's documented success payload shape with no hits. -/
def snippetsEmpty : Json := Json.obj [("snippets", Json.arr [])]

/-- The downstream body produced when no arguments object is supplied at all:
only the defaulted fields are present. -/
def defaultOnlyBody : QueryBody :=
  { query := none, traditions := none, topK := some (Json.num 6), lang := some Json.null }

/-- The name check accepts exactly the registered tool name. -/
theorem isQdrantName_eq_true (v : Option Json) :
    isQdrantName v = true ↔ v = some (Json.str "qdrant_search") := by
  cases v with
  | none => simp [isQdrantName]
  | some j => cases j <;> simp [isQdrantName]

/-- Nullish coalescing yields the default on an absent or null field. -/
theorem jsCoalesce_nullish (v : Option Json) (d : Json)
    (h : v = none ∨ v = some Json.null) : jsCoalesce v d = d := by
  rcases h with h | h <;> rw [h] <;> rfl

/-- Nullish coalescing passes a present non-null value through unchanged. -/
theorem jsCoalesce_of_ne_null (v : Json) (d : Json) (h : v ≠ Json.null) :
    jsCoalesce (some v) d = v := by
  cases v <;> first | rfl | exact absurd rfl h

/-- Every response produced by the string-method dispatch table carries the
dispatched id. -/
theorem dispatch_response_id (id : Option Json) (s : String) (p : Option RpcParams)
    (b : FetchOutcome) (resp : RpcResponse)
    (h : (dispatchString id s p b).response = some resp) : resp.id = id := by
  unfold dispatchString simpleResp at h
  repeat' split at h
  all_goals try (dsimp only at h; split at h)
  all_goals (injection h with h1; subst h1; rfl)

/-- Every response handleRpcMessage produces carries the triggering
message's id. -/
theorem handle_response_id (msg : RpcMessage) (b : FetchOutcome) (resp : RpcResponse)
    (h : (handleRpcMessage msg b).response = some resp) : resp.id = msg.id := by
  obtain ⟨mid, mmethod, mparams⟩ := msg
  unfold handleRpcMessage simpleResp at h
  repeat' split at h
  all_goals first
    | (injection h with h1; subst h1; rfl)
    | exact dispatch_response_id _ _ _ _ _ h
    | exact absurd h (by simp)

/-- Claim C1: for every decoded RpcMessage the engine answers, on either
transport and for every method, the emitted response's id equals the
triggering message's id, and (as an Option) is absent exactly when the
message carried no id. -/
theorem rpc_response_correlation_id (msg : RpcMessage) (b : FetchOutcome) (resp : RpcResponse) :
    ((handleRpcMessage msg b).response = some resp → resp.id = msg.id) ∧
    (resp ∈ wsOnMessage (some msg) b → resp.id = msg.id) ∧
    (resp ∈ (ssePostOnEnd (some msg) b).streamEvents → resp.id = msg.id) := by
  refine ⟨handle_response_id msg b resp, ?_, ?_⟩ <;>
    · intro hmem
      apply handle_response_id msg b resp
      simpa [wsOnMessage, ssePostOnEnd, Option.mem_toList, Option.mem_def] using hmem

/-- Claim C2: an inbound body that fails JSON decoding produces no protocol
response on either transport: the WebSocket handler sends no frame, and the
SSE POST end handler writes no message event onto the paired stream. -/
theorem undecodable_input_silent_both_transports (b : FetchOutcome) :
    wsOnMessage none b = [] ∧ (ssePostOnEnd none b).streamEvents = [] := ⟨rfl, rfl⟩

/-- Claim C3: invoking the registered tool never propagates an exception:
for every fetch outcome the delivered response is a protocol-successful
result, and on either raise mode (fetch rejection, malformed backend JSON)
it is a ToolResult with isError true and a single text part beginning with
"Gateway error: " followed by the failure description. -/
theorem backend_invoke_never_raises (id : Option Json) (pargs : Option ToolArgs)
    (b : FetchOutcome) (e : String) :
    (∃ payload, (handleRpcMessage (toolCallMsg id pargs) b).response =
        some { id := id, outcome := RpcOutcome.result payload }) ∧
    ((handleRpcMessage (toolCallMsg id pargs) (FetchOutcome.reject e)).response =
        some { id := id,
               outcome := RpcOutcome.result (toolResultJson [textPart ("Gateway error: " ++ e)] true) }) ∧
    ((handleRpcMessage (toolCallMsg id pargs) (FetchOutcome.okJsonError e)).response =
        some { id := id,
               outcome := RpcOutcome.result (toolResultJson [textPart ("Gateway error: " ++ e)] true) }) :=
  ⟨⟨backendResponseResult b, rfl⟩, rfl, rfl⟩

/-- Claim C4, counterexample: on backend status 500 with body "oops" the
delivered text is "FastAPI 500: oops", which is not the claimed "500: oops". -/
theorem backend_error_text_counterexample :
    (handleRpcMessage (toolCallMsg (some (Json.num 2)) (some argsKarma))
        (FetchOutcome.notOk 500 "oops")).response =
      some { id := some (Json.num 2),
             outcome := RpcOutcome.result (toolResultJson [textPart "FastAPI 500: oops"] true) } ∧
    "FastAPI 500: oops" ≠ "500: oops" := ⟨rfl, by decide⟩

/-- Claim C4 as amended: on a non-success backend status the ToolResult has
isError true and exactly one text part of the form "FastAPI <status>: <body>",
which always contains the status code. -/
theorem backend_error_text_amended (id : Option Json) (pargs : Option ToolArgs)
    (status : Nat) (body : String) :
    (handleRpcMessage (toolCallMsg id pargs) (FetchOutcome.notOk status body)).response =
      some { id := id,
             outcome := RpcOutcome.result
               (toolResultJson [textPart ("FastAPI " ++ toString status ++ ": " ++ body)] true) } ∧
    ∃ pre post, "FastAPI " ++ toString status ++ ": " ++ body = pre ++ (toString status ++ post) := by
  refine ⟨rfl, "FastAPI ", ": " ++ body, ?_⟩
  rw [String.append_assoc, String.append_assoc]

/-- Claim C5: on a successful backend response with parsed JSON body `data`,
the ToolResult has isError false and exactly one JSON-kind content part whose
data equals the backend's parsed body. -/
theorem backend_success_single_json_part (id : Option Json) (pargs : Option ToolArgs)
    (data : Json) :
    (handleRpcMessage (toolCallMsg id pargs) (FetchOutcome.okJson data)).response =
      some { id := id, outcome := RpcOutcome.result (toolResultJson [jsonPart data] false) } := rfl

/-- Claim C6: a tools/call whose params.name is absent or differs from
"qdrant_search" is answered with the -32601 Unknown-tool fault, never a
ToolResult payload, and no backend request is issued. -/
theorem unknown_tool_fault_no_backend_call (id nm : Option Json) (pargs : Option ToolArgs)
    (b : FetchOutcome) (h : nm ≠ some (Json.str "qdrant_search")) :
    handleRpcMessage ⟨id, some (Json.str "tools/call"), some ⟨nm, pargs⟩⟩ b =
      simpleResp id (RpcOutcome.fault (-32601) "Unknown tool") := by
  have hf : isQdrantName nm = false := by
    cases hq : isQdrantName nm
    · rfl
    · exact absurd ((isQdrantName_eq_true nm).mp hq) h
  have he : handleRpcMessage ⟨id, some (Json.str "tools/call"), some ⟨nm, pargs⟩⟩ b =
      (if isQdrantName nm then
        ({ response := some { id := id, outcome := RpcOutcome.result (backendResponseResult b) },
           backendRequest := some (qdrantBody pargs) } : HandleResult)
       else simpleResp id (RpcOutcome.fault (-32601) "Unknown tool")) := rfl
  rw [he, hf]
  rfl

/-- Witness for C6 at a concrete input: a tools/call carrying no name at all
gets the Unknown-tool fault and no backend request. -/
theorem unknown_tool_fault_no_backend_call_witness :
    handleRpcMessage ⟨some (Json.num 7), some (Json.str "tools/call"), some ⟨none, none⟩⟩
        (FetchOutcome.okJson Json.null) =
      simpleResp (some (Json.num 7)) (RpcOutcome.fault (-32601) "Unknown tool") :=
  unknown_tool_fault_no_backend_call (some (Json.num 7)) none none (FetchOutcome.okJson Json.null)
    (fun h => Option.noConfusion h)

/-- Claim C7: initialize always succeeds with a result (never a fault)
carrying the protocol version, the server identity, and a capabilities
object declaring tool listing and invocation support plus prompt/resource
support whose served collections are empty. -/
theorem handshake_always_succeeds (id : Option Json) (params : Option RpcParams)
    (b : FetchOutcome) :
    ((handleRpcMessage ⟨id, some (Json.str "initialize"), params⟩ b).response =
      some { id := id, outcome := RpcOutcome.result initResultJson }) ∧
    initResultJson.getField "protocolVersion" = some (Json.str "2024-05-14") ∧
    initResultJson.getField "serverInfo" =
      some (.obj [("name", .str "akasha-mcp"), ("version", .str "0.1.0")]) ∧
    (initResultJson.getField "capabilities").bind (fun c => c.getField "tools") =
      some (.obj [("list", .bool true), ("call", .bool true)]) ∧
    (initResultJson.getField "capabilities").bind (fun c => c.getField "prompts") =
      some (.obj [("list", .bool true)]) ∧
    (initResultJson.getField "capabilities").bind (fun c => c.getField "resources") =
      some (.obj [("list", .bool true)]) ∧
    ((handleRpcMessage ⟨id, some (Json.str "resources/list"), params⟩ b).response =
      some { id := id, outcome := RpcOutcome.result (.obj [("resources", .arr [])]) }) ∧
    ((handleRpcMessage ⟨id, some (Json.str "prompts/list"), params⟩ b).response =
      some { id := id, outcome := RpcOutcome.result (.obj [("prompts", .arr [])]) }) :=
  ⟨rfl, rfl, rfl, rfl, rfl, rfl, rfl, rfl⟩

/-- Claim C8: a successfully decoded message carrying no method field is
silently dropped: no response of any kind, and no backend request. -/
theorem missing_method_silently_dropped (id : Option Json) (params : Option RpcParams)
    (b : FetchOutcome) :
    handleRpcMessage ⟨id, none, params⟩ b =
      { response := none, backendRequest := none } := rfl

/-- Claim C9, counterexample: with arguments supplying topK as JSON null and
no lang, the downstream body sets topK to 6 (not the supplied null) and
carries lang explicitly as null (present, not absent). -/
theorem downstream_body_counterexample :
    (handleRpcMessage (toolCallMsg (some (Json.num 5)) (some argsTopKNull))
        (FetchOutcome.okJson Json.null)).backendRequest =
      some { query := some (Json.str "karma"), traditions := some (Json.str "buddhism"),
             topK := some (Json.num 6), lang := some Json.null } ∧
    argsTopKNull.topK = some Json.null ∧
    some (Json.num 6) ≠ some Json.null ∧
    argsTopKNull.lang = none ∧
    (some Json.null : Option Json) ≠ none :=
  ⟨rfl, rfl, fun h => Json.noConfusion (Option.some.inj h), rfl, fun h => Option.noConfusion h⟩

/-- Claim C9 as amended: the downstream body passes query and traditions
through unchanged (absent stays absent), sets topK to the supplied value when
supplied non-null and to 6 when absent or null, and sets lang to the supplied
value when supplied non-null and to an explicit null otherwise. -/
theorem downstream_body_amended (id : Option Json) (a : ToolArgs) (b : FetchOutcome) :
    ∃ body, (handleRpcMessage (toolCallMsg id (some a)) b).backendRequest = some body ∧
      body.query = a.query ∧
      body.traditions = a.traditions ∧
      ((a.topK = none ∨ a.topK = some Json.null) → body.topK = some (Json.num 6)) ∧
      (∀ v, a.topK = some v → v ≠ Json.null → body.topK = some v) ∧
      ((a.lang = none ∨ a.lang = some Json.null) → body.lang = some Json.null) ∧
      (∀ v, a.lang = some v → v ≠ Json.null → body.lang = some v) := by
  refine ⟨qdrantBody (some a), rfl, rfl, rfl, ?_, ?_, ?_, ?_⟩
  · intro h
    show some (jsCoalesce a.topK (Json.num 6)) = some (Json.num 6)
    rw [jsCoalesce_nullish a.topK (Json.num 6) h]
  · intro v hv hne
    show some (jsCoalesce a.topK (Json.num 6)) = some v
    rw [hv, jsCoalesce_of_ne_null v (Json.num 6) hne]
  · intro h
    show some (jsCoalesce a.lang Json.null) = some Json.null
    rw [jsCoalesce_nullish a.lang Json.null h]
  · intro v hv hne
    show some (jsCoalesce a.lang Json.null) = some v
    rw [hv, jsCoalesce_of_ne_null v Json.null hne]

/-- Claim C10, counterexample: a tools/call whose params names the registered
tool but carries no arguments field is not answered with the Unknown-tool
fault: it is a protocol-successful ToolResult and a backend request is
issued (with the defaults-only body). -/
theorem toolcall_missing_arguments_counterexample :
    (handleRpcMessage (toolCallMsg (some (Json.num 3)) none) (FetchOutcome.okJson snippetsEmpty)) =
      { response := some { id := some (Json.num 3),
                           outcome := RpcOutcome.result (toolResultJson [jsonPart snippetsEmpty] false) },
        backendRequest := some defaultOnlyBody } ∧
    RpcOutcome.result (toolResultJson [jsonPart snippetsEmpty] false) ≠
      RpcOutcome.fault (-32601) "Unknown tool" ∧
    (some defaultOnlyBody : Option QueryBody) ≠ none :=
  ⟨rfl, fun h => RpcOutcome.noConfusion h, fun h => Option.noConfusion h⟩

/-- Claim C10 as amended: dispatch is total on missing fields. A tools/call
with no params at all is answered with the -32601 Unknown-tool fault and no
backend request; a tools/call naming the registered tool with no arguments
field still dispatches, calling the backend with the defaults-only body
(query and traditions absent, topK 6, lang null) and delivering a result. -/
theorem toolcall_missing_params_total (id : Option Json) (b : FetchOutcome) :
    (handleRpcMessage ⟨id, some (Json.str "tools/call"), none⟩ b =
      simpleResp id (RpcOutcome.fault (-32601) "Unknown tool")) ∧
    ((handleRpcMessage (toolCallMsg id none) b).backendRequest = some defaultOnlyBody) ∧
    (∃ payload, (handleRpcMessage (toolCallMsg id none) b).response =
      some { id := id, outcome := RpcOutcome.result payload }) :=
  ⟨rfl, rfl, ⟨backendResponseResult b, rfl⟩⟩
